import Mathlib

/-!
Verification of the Behavioral Telemetry & Trust-Policy Client of the
continuous-authentication platform.  The definitions below are a shallow
embedding of the frontend source:

* `src/frontend/src/hooks/useBehavioralCapture.js` — the Input Capture
  Collector and Batch Transport (event handlers plus `sendEventBatch`);
* the React Dashboard of `src/unnamed/part_003` — the Policy Reactor
  (`applyPolicy`, `handleTerminate`, `addAlert`) and its step-up modal wiring;
* the legacy `src/frontend/src/components/Dashboard.jsx` — its step-up
  cancel handler;
* `src/unnamed/part_001` (`AuthContext`) — `logout`;
* `src/unnamed/part_005` (`TrustScoreCard`) — the displayed score;
* `src/unnamed/part_008` (`services/api`) — the WebAuthn base64url helpers
  `arrayBufferToBase64` / `base64ToArrayBuffer`.

JavaScript numbers that only ever hold integers (millisecond clocks,
counters, byte values, char codes) are modelled as `Nat`/`Int`; trust scores,
which may be fractional, as `ℚ`.
-/

namespace ContAuth

/-! ### Input Capture Collector (`useBehavioralCapture.js`) -/

/-- A normalized behavioral event as pushed onto `eventBuffer`.
Timestamps are `Date.now() / 1000` (seconds, fractional), kept as `ℚ`. -/
inductive BEvent where
  | keystroke (key : String) (act : String) (timestamp : ℚ)
  | mouse (x y : Int) (act : String) (timestamp : ℚ)
deriving DecidableEq, Repr

/-- A DOM keyboard event, restricted to the fields the hook reads:
`event.key`, `event.code` and `event.target.type`. -/
structure KeyEvt where
  key : String
  code : String
  targetType : String
deriving DecidableEq, Repr

/-- A DOM mouse event, restricted to `clientX`/`clientY`. -/
structure MouseEvt where
  clientX : Int
  clientY : Int
deriving DecidableEq, Repr

/-- The mutable state of one `useBehavioralCapture` instance: the refs
`eventBuffer`, `lastMouseMove`, `isCapturing`, the `stats` React state
(`keystrokeCount`, `mouseCount`, `batchesSent`), the `updateTrustScore`
React state (initially `{score: null, status: null}`), and a count of
`console.error` calls (the only failure channel the hook has). -/
structure CaptureState where
  buffer : List BEvent
  keystrokeCount : Nat
  mouseCount : Nat
  batchesSent : Nat
  lastMouseMove : Nat
  isCapturing : Bool
  updateScore : Option ℚ
  updateStatus : Option String
  loggedErrors : Nat
deriving DecidableEq, Repr

/-- State right after `startCapture()`. -/
def initialCapture : CaptureState :=
  { buffer := [], keystrokeCount := 0, mouseCount := 0, batchesSent := 0,
    lastMouseMove := 0, isCapturing := true,
    updateScore := none, updateStatus := none, loggedErrors := 0 }

/-- `event.key.length === 1 ? event.key : event.code`. -/
def keyOf (e : KeyEvt) : String :=
  if e.key.length = 1 then e.key else e.code

/-- `handleKeyDown`: drop when not capturing or when the target is a
password field; otherwise buffer a `down` keystroke and bump
`keystrokeCount`.  `now` is `Date.now()` in ms. -/
def handleKeyDown (e : KeyEvt) (now : Nat) (s : CaptureState) : CaptureState :=
  if ¬ s.isCapturing then s
  else if e.targetType = "password" then s
  else
    { s with
      buffer := s.buffer ++ [BEvent.keystroke (keyOf e) "down" ((now : ℚ) / 1000)],
      keystrokeCount := s.keystrokeCount + 1 }

/-- `handleKeyUp`: same guards as `handleKeyDown`; buffers an `up`
keystroke but performs no `setStats` call. -/
def handleKeyUp (e : KeyEvt) (now : Nat) (s : CaptureState) : CaptureState :=
  if ¬ s.isCapturing then s
  else if e.targetType = "password" then s
  else
    { s with
      buffer := s.buffer ++ [BEvent.keystroke (keyOf e) "up" ((now : ℚ) / 1000)] }

/-- `MOUSE_THROTTLE` (ms). -/
def MOUSE_THROTTLE : Int := 100

/-- `handleMouseMove`: throttled — a sample closer than `MOUSE_THROTTLE`
to the previous recorded move is dropped; otherwise buffer a `move` and
bump `mouseCount`. -/
def handleMouseMove (e : MouseEvt) (now : Nat) (s : CaptureState) : CaptureState :=
  if ¬ s.isCapturing then s
  else if (now : Int) - (s.lastMouseMove : Int) < MOUSE_THROTTLE then s
  else
    { s with
      lastMouseMove := now,
      buffer := s.buffer ++ [BEvent.mouse e.clientX e.clientY "move" ((now : ℚ) / 1000)],
      mouseCount := s.mouseCount + 1 }

/-- `handleMouseClick`: never throttled; buffer a `click` and bump
`mouseCount`. -/
def handleMouseClick (e : MouseEvt) (now : Nat) (s : CaptureState) : CaptureState :=
  if ¬ s.isCapturing then s
  else
    { s with
      buffer := s.buffer ++ [BEvent.mouse e.clientX e.clientY "click" ((now : ℚ) / 1000)],
      mouseCount := s.mouseCount + 1 }

/-- Response of `POST /events/batch` as read by the hook:
`events_processed`, optional `trust_score`, and `status`. -/
structure BatchResult where
  eventsProcessed : Nat
  trustScore : Option ℚ
  status : Option String
deriving DecidableEq, Repr

/-- `sendEventBatch`.  The network outcome is an input: `none` models a
thrown error or rejected promise, `some r` a successful response `r`.
`hasSession` models `token && sessionId` being present.  Returns the new
state together with the payload submitted to `POST /events/batch`
(`none` when the guards made the call return early).

Source order is kept: empty-buffer guard, session guard, copy the buffer
into `batch`, clear the buffer, then the `try`/`catch`. -/
def sendEventBatch (hasSession : Bool) (result : Option BatchResult)
    (s : CaptureState) : CaptureState × Option (List BEvent) :=
  if s.buffer = [] then (s, none)
  else if ¬ hasSession then (s, none)
  else
    let batch := s.buffer
    let s1 := { s with buffer := [] }
    match result with
    | none => ({ s1 with loggedErrors := s1.loggedErrors + 1 }, some batch)
    | some r =>
        let s2 := { s1 with batchesSent := s1.batchesSent + 1 }
        let s3 :=
          match r.trustScore with
          | none => s2
          | some q => { s2 with updateScore := some q, updateStatus := r.status }
        (s3, some batch)

/-! ### Policy Reactor — the Dashboard of `src/unnamed/part_003` -/

/-- An entry of the `alerts` React state as built by `addAlert`:
`{id: Date.now(), message, type, timestamp}` (the rendered timestamp string
is a pure function of the id, so the id field carries the time). -/
structure Alert where
  id : Nat
  message : String
  type : String
deriving DecidableEq, Repr

/-- A `showToast` invocation (message and type). -/
structure Toast where
  message : String
  type : String
deriving DecidableEq, Repr

/-- `Math.round` on a rational: JavaScript rounds half toward +∞,
i.e. `Math.round(x) = ⌊x + 1/2⌋`. -/
def jsRound (q : ℚ) : Int := ⌊q + 1 / 2⌋

/-- Dashboard state of `src/unnamed/part_003`: `trustScore`, `trustStatus`,
`showStepUp`, `alerts`, plus the observable effect channels — toasts shown
and the absolute fire times of every `setTimeout(() => logout(), …)`
scheduled by `handleTerminate`. -/
structure DashState where
  trustScore : ℚ
  trustStatus : String
  showStepUp : Bool
  alerts : List Alert
  toasts : List Toast
  teardownTimers : List Nat
deriving DecidableEq, Repr

/-- Initial Dashboard state: score 100, status OK, no modal, no alerts. -/
def initialDash : DashState :=
  { trustScore := 100, trustStatus := "OK", showStepUp := false,
    alerts := [], toasts := [], teardownTimers := [] }

/-- `TERMINATE_DELAY_MS` of `part_003`. -/
def TERMINATE_DELAY_MS : Nat := 4000

/-- `addAlert`: prepend the new alert and keep at most 20
(`[newAlert, ...prev].slice(0, 20)`).  `now` is `Date.now()`. -/
def addAlert (now : Nat) (message type : String) (s : DashState) : DashState :=
  { s with alerts := (⟨now, message, type⟩ :: s.alerts).take 20 }

/-- `showToast` as observed by the user: record the toast. -/
def showToast (message type : String) (s : DashState) : DashState :=
  { s with toasts := s.toasts ++ [⟨message, type⟩] }

/-- `handleTerminate`: danger alert, "terminating" toast, and an
unconditional `setTimeout(() => logout(), TERMINATE_DELAY_MS)` —
modelled by appending the fire time `now + TERMINATE_DELAY_MS`. -/
def handleTerminate (now : Nat) (s : DashState) : DashState :=
  let s1 := addAlert now "⛔ Session terminated by security policy" "danger" s
  let s2 := showToast "Session terminated — logging out in 4 seconds" "error" s1
  { s2 with teardownTimers := s2.teardownTimers ++ [now + TERMINATE_DELAY_MS] }

/-- Alert text of the `monitor` branch:
```📊 Trust score in monitoring range (${Math.round(score)})``` (the raw
`score` parameter; `undefined` renders as NaN). -/
def monitorMsg (score : Option ℚ) : String :=
  match score with
  | some q => "📊 Trust score in monitoring range (" ++ toString (jsRound q) ++ ")"
  | none => "📊 Trust score in monitoring range (NaN)"

/-- `applyPolicy(action, requireStepup, score, status)` of `part_003`:
display update via `score ?? trustScore` / `status ?? trustStatus`,
then the branch chain on `action`/`requireStepup`. -/
def applyPolicy (act : Option String) (requireStepup : Bool)
    (score : Option ℚ) (status : Option String) (now : Nat)
    (s : DashState) : DashState :=
  let s0 := { s with
    trustScore := score.getD s.trustScore,
    trustStatus := status.getD s.trustStatus }
  if act = some "terminate" then
    handleTerminate now s0
  else if act = some "stepup" ∨ requireStepup then
    if ¬ s0.showStepUp then
      showToast "Re-authentication required" "warning"
        (addAlert now "⚠️ Suspicious behaviour — step-up authentication required"
          "warning" { s0 with showStepUp := true })
    else s0
  else if act = some "monitor" then
    addAlert now (monitorMsg score) "info" s0
  else s0

/-! ### Session / step-up cancel (`AuthContext`, both Dashboards) -/

/-- The `AuthContext` state of `src/unnamed/part_001`. -/
structure AuthState where
  token : Option String
  sessionId : Option String
  username : Option String
  isAuthenticated : Bool
deriving DecidableEq, Repr

/-- `logout` of `AuthContext`: the `finally` block always clears the
token, session, username and authentication flag (the `App` then renders
the unauthenticated `AuthView`). -/
def logout (_a : AuthState) : AuthState :=
  { token := none, sessionId := none, username := none, isAuthenticated := false }

/-- Step-up cancel in the Dashboard of `part_003`:
`<StepUpModal … onCancel={logout} />`. -/
def stepUpOnCancelP3 (a : AuthState) : AuthState := logout a

/-- State of the legacy `src/frontend/src/components/Dashboard.jsx`
relevant to its step-up cancel handler: the modal flag plus the
surrounding auth session. -/
structure LegacyDashState where
  showStepUp : Bool
  auth : AuthState
deriving DecidableEq, Repr

/-- Step-up cancel in the legacy `Dashboard.jsx`:
`onCancel={() => setShowStepUp(false)}` — only the modal flag changes. -/
def stepUpOnCancelLegacy (d : LegacyDashState) : LegacyDashState :=
  { d with showStepUp := false }

/-! ### Displayed score (`TrustScoreCard`, `src/unnamed/part_005`) -/

/-- The numeral rendered by `TrustScoreCard`:
`<div className="trust-score-value">{Math.round(score)}</div>`
(`updateTrustScore` of `src/unnamed/part_000` line 119 is the same
`Math.round(score)`). -/
def displayedTrustScore (score : ℚ) : Int := jsRound score

/-! ### WebAuthn base64url helpers (`src/unnamed/part_008`)

Byte sequences are `List Nat` with entries < 256; strings are lists of
char codes (`List Nat`), which is what the JS code manipulates through
`charCodeAt` / `fromCharCode` / `btoa` / `atob`. -/

/-- The standard base64 alphabet: index (0–63) to char code, as used by
`btoa`. -/
def b64Char (i : Nat) : Nat :=
  if i < 26 then 65 + i
  else if i < 52 then 97 + (i - 26)
  else if i < 62 then 48 + (i - 52)
  else if i = 62 then 43
  else 47

/-- Inverse alphabet: char code to index, `none` for a character outside
the base64 alphabet (`atob` throws on such input). -/
def b64Idx (c : Nat) : Option Nat :=
  if 65 ≤ c ∧ c ≤ 90 then some (c - 65)
  else if 97 ≤ c ∧ c ≤ 122 then some (26 + (c - 97))
  else if 48 ≤ c ∧ c ≤ 57 then some (52 + (c - 48))
  else if c = 43 then some 62
  else if c = 47 then some 63
  else none

/-- `btoa`: standard base64 of a byte list, char codes, with `=` (61)
padding. -/
def btoa : List Nat → List Nat
  | a :: b :: c :: rest =>
      b64Char (a / 4) :: b64Char (a % 4 * 16 + b / 16) ::
      b64Char (b % 16 * 4 + c / 64) :: b64Char (c % 64) :: btoa rest
  | [a, b] => [b64Char (a / 4), b64Char (a % 4 * 16 + b / 16), b64Char (b % 16 * 4), 61]
  | [a] => [b64Char (a / 4), b64Char (a % 4 * 16), 61, 61]
  | [] => []

/-- The chained `.replace(/\+/g, '-').replace(/\//g, '_')` of
`arrayBufferToBase64`, per character. -/
def urlSub (c : Nat) : Nat :=
  if c = 43 then 45 else if c = 47 then 95 else c

/-- `arrayBufferToBase64`: read the buffer bytes, `btoa`, then
`+`→`-`, `/`→`_`, and drop every `=` (`.replace(/=/g, '')`). -/
def arrayBufferToBase64 (bytes : List Nat) : List Nat :=
  ((btoa bytes).map urlSub).filter (fun c => c ≠ 61)

/-- The chained replaces of `base64ToArrayBuffer` (each dash to a plus,
each underscore to a slash), per character. -/
def urlUnsub (c : Nat) : Nat :=
  if c = 45 then 43 else if c = 95 then 47 else c

/-- Forgiving-base64 padding removal: when the length is a multiple of 4,
strip one or two trailing `=`. -/
def stripPad (s : List Nat) : List Nat :=
  if s.length % 4 = 0 then
    if s.getLast? = some 61 then
      if s.dropLast.getLast? = some 61 then s.dropLast.dropLast else s.dropLast
    else s
  else s

/-- Decode groups of four base64 characters into three bytes; a trailing
group of three yields two bytes and one of two yields one byte (leftover
bits discarded, as forgiving-base64 does); a trailing single character or
any non-alphabet character is an error. -/
def decodeChunks : List Nat → Option (List Nat)
  | [] => some []
  | [c1, c2] => do
      let s1 ← b64Idx c1
      let s2 ← b64Idx c2
      pure [s1 * 4 + s2 / 16]
  | [c1, c2, c3] => do
      let s1 ← b64Idx c1
      let s2 ← b64Idx c2
      let s3 ← b64Idx c3
      pure [s1 * 4 + s2 / 16, s2 % 16 * 16 + s3 / 4]
  | [_] => none
  | c1 :: c2 :: c3 :: c4 :: rest => do
      let s1 ← b64Idx c1
      let s2 ← b64Idx c2
      let s3 ← b64Idx c3
      let s4 ← b64Idx c4
      let tl ← decodeChunks rest
      pure ((s1 * 4 + s2 / 16) :: (s2 % 16 * 16 + s3 / 4) :: (s3 % 4 * 64 + s4) :: tl)

/-- `atob` (WHATWG forgiving-base64 decode, no whitespace case): strip
padding, then decode; `none` models the thrown `InvalidCharacterError`. -/
def atobModel (s : List Nat) : Option (List Nat) :=
  decodeChunks (stripPad s)

/-- `base64ToArrayBuffer`: `-`→`+`, `_`→`/`, `atob`, then
`charCodeAt` each character into a byte buffer. -/
def base64ToArrayBuffer (s : List Nat) : Option (List Nat) :=
  atobModel (s.map urlUnsub)

/-! ### Theorems about the Input Capture Collector -/

/-- C3: while capture is active, a keystroke event (keydown or keyup) whose
target is a password field leaves the whole capture state unchanged — in
particular the event buffer, `keystrokeCount` and `mouseCount`: the
keystroke is neither appended nor counted. -/
theorem sensitive_keystrokes_never_recorded
    (s : CaptureState) (e : KeyEvt) (now : Nat)
    (hcap : s.isCapturing = true) (hsens : e.targetType = "password") :
    handleKeyDown e now s = s ∧ handleKeyUp e now s = s := by
  constructor <;> simp [handleKeyDown, handleKeyUp, hcap, hsens]

/-- Witness for `sensitive_keystrokes_never_recorded` at a concrete state
and password-field event. -/
theorem sensitive_keystrokes_never_recorded_witness :
    initialCapture.isCapturing = true ∧
    (KeyEvt.mk "a" "KeyA" "password").targetType = "password" ∧
    (handleKeyDown (KeyEvt.mk "a" "KeyA" "password") 5000 initialCapture = initialCapture ∧
     handleKeyUp (KeyEvt.mk "a" "KeyA" "password") 5000 initialCapture = initialCapture) :=
  ⟨rfl, rfl,
    sensitive_keystrokes_never_recorded initialCapture
      (KeyEvt.mk "a" "KeyA" "password") 5000 rfl rfl⟩

/-- C4: flushing a non-empty buffer (with a session present) empties the
buffer immediately and submits exactly the prior buffer contents, whatever
the network outcome turns out to be. -/
theorem flush_atomic_lossless (s : CaptureState) (result : Option BatchResult)
    (hne : s.buffer ≠ []) :
    (sendEventBatch true result s).1.buffer = [] ∧
    (sendEventBatch true result s).2 = some s.buffer := by
  unfold sendEventBatch
  match result with
  | none => simp [hne]
  | some r =>
      match hr : r.trustScore with
      | none => simp [hne, hr]
      | some q => simp [hne, hr]

/-- Witness for `flush_atomic_lossless` on a one-event buffer and a
successful response. -/
theorem flush_atomic_lossless_witness :
    ({ initialCapture with buffer := [BEvent.mouse 3 4 "click" 1] } : CaptureState).buffer ≠ [] ∧
    ((sendEventBatch true (some (BatchResult.mk 1 (some 80) (some "OK")))
        { initialCapture with buffer := [BEvent.mouse 3 4 "click" 1] }).1.buffer = [] ∧
     (sendEventBatch true (some (BatchResult.mk 1 (some 80) (some "OK")))
        { initialCapture with buffer := [BEvent.mouse 3 4 "click" 1] }).2
        = some ({ initialCapture with buffer := [BEvent.mouse 3 4 "click" 1] } : CaptureState).buffer) :=
  ⟨by decide,
    flush_atomic_lossless { initialCapture with buffer := [BEvent.mouse 3 4 "click" 1] }
      (some (BatchResult.mk 1 (some 80) (some "OK"))) (by decide)⟩

/-- C5 counterexample: a non-sensitive keyup while capture is active is
appended to the buffer yet leaves `keystrokeCount` unchanged — refuting
the claim that every non-sensitive keystroke event (keydown or keyup)
increases `keystrokeCount` by exactly 1. -/
theorem keyup_not_counted_cex :
    (handleKeyUp (KeyEvt.mk "a" "KeyA" "text") 5000 initialCapture).keystrokeCount
        = initialCapture.keystrokeCount ∧
    (handleKeyUp (KeyEvt.mk "a" "KeyA" "text") 5000 initialCapture).buffer
        = [BEvent.keystroke "a" "up" 5] := by
  constructor
  · rfl
  · have h1 : "a".length = 1 := rfl
    simp [handleKeyUp, initialCapture, keyOf, h1]
    norm_num

/-- C5 amended: while capture is active, a non-sensitive keydown increases
`keystrokeCount` by exactly 1; a non-sensitive keyup is buffered but
changes no counter; an unthrottled mouse move and any click increase
`mouseCount` by exactly 1; password-field keystrokes change no counter. -/
theorem counter_increment_per_event
    (s : CaptureState) (e : KeyEvt) (m : MouseEvt) (now : Nat)
    (hcap : s.isCapturing = true) (hns : e.targetType ≠ "password") :
    (handleKeyDown e now s).keystrokeCount = s.keystrokeCount + 1 ∧
    (handleKeyDown e now s).mouseCount = s.mouseCount ∧
    (handleKeyUp e now s).keystrokeCount = s.keystrokeCount ∧
    (handleKeyUp e now s).mouseCount = s.mouseCount ∧
    (handleKeyUp e now s).buffer
        = s.buffer ++ [BEvent.keystroke (keyOf e) "up" ((now : ℚ) / 1000)] ∧
    (¬ (now : Int) - (s.lastMouseMove : Int) < MOUSE_THROTTLE →
      (handleMouseMove m now s).mouseCount = s.mouseCount + 1 ∧
      (handleMouseMove m now s).keystrokeCount = s.keystrokeCount) ∧
    (handleMouseClick m now s).mouseCount = s.mouseCount + 1 ∧
    (handleMouseClick m now s).keystrokeCount = s.keystrokeCount ∧
    (∀ e2 : KeyEvt, e2.targetType = "password" →
      (handleKeyDown e2 now s).keystrokeCount = s.keystrokeCount ∧
      (handleKeyDown e2 now s).mouseCount = s.mouseCount ∧
      (handleKeyUp e2 now s).keystrokeCount = s.keystrokeCount ∧
      (handleKeyUp e2 now s).mouseCount = s.mouseCount) := by
  refine ⟨?_, ?_, ?_, ?_, ?_, ?_, ?_, ?_, ?_⟩
  · simp [handleKeyDown, hcap, hns]
  · simp [handleKeyDown, hcap, hns]
  · simp [handleKeyUp, hcap, hns]
  · simp [handleKeyUp, hcap, hns]
  · simp [handleKeyUp, hcap, hns]
  · intro hthr
    constructor <;> simp [handleMouseMove, hcap, hthr]
  · simp [handleMouseClick, hcap]
  · simp [handleMouseClick, hcap]
  · intro e2 h2
    refine ⟨?_, ?_, ?_, ?_⟩ <;> simp [handleKeyDown, handleKeyUp, hcap, h2]

/-- Witness for `counter_increment_per_event` at concrete events from the
initial capture state (clock far past the throttle window). -/
theorem counter_increment_per_event_witness :
    initialCapture.isCapturing = true ∧
    (KeyEvt.mk "a" "KeyA" "text").targetType ≠ "password" ∧
    ((handleKeyDown (KeyEvt.mk "a" "KeyA" "text") 5000 initialCapture).keystrokeCount
        = initialCapture.keystrokeCount + 1 ∧
     (handleKeyDown (KeyEvt.mk "a" "KeyA" "text") 5000 initialCapture).mouseCount
        = initialCapture.mouseCount ∧
     (handleKeyUp (KeyEvt.mk "a" "KeyA" "text") 5000 initialCapture).keystrokeCount
        = initialCapture.keystrokeCount ∧
     (handleKeyUp (KeyEvt.mk "a" "KeyA" "text") 5000 initialCapture).mouseCount
        = initialCapture.mouseCount ∧
     (handleKeyUp (KeyEvt.mk "a" "KeyA" "text") 5000 initialCapture).buffer
        = initialCapture.buffer
            ++ [BEvent.keystroke (keyOf (KeyEvt.mk "a" "KeyA" "text")) "up" ((5000 : ℚ) / 1000)] ∧
     (¬ (5000 : Int) - (initialCapture.lastMouseMove : Int) < MOUSE_THROTTLE →
       (handleMouseMove (MouseEvt.mk 7 9) 5000 initialCapture).mouseCount
          = initialCapture.mouseCount + 1 ∧
       (handleMouseMove (MouseEvt.mk 7 9) 5000 initialCapture).keystrokeCount
          = initialCapture.keystrokeCount) ∧
     (handleMouseClick (MouseEvt.mk 7 9) 5000 initialCapture).mouseCount
        = initialCapture.mouseCount + 1 ∧
     (handleMouseClick (MouseEvt.mk 7 9) 5000 initialCapture).keystrokeCount
        = initialCapture.keystrokeCount ∧
     (∀ e2 : KeyEvt, e2.targetType = "password" →
       (handleKeyDown e2 5000 initialCapture).keystrokeCount = initialCapture.keystrokeCount ∧
       (handleKeyDown e2 5000 initialCapture).mouseCount = initialCapture.mouseCount ∧
       (handleKeyUp e2 5000 initialCapture).keystrokeCount = initialCapture.keystrokeCount ∧
       (handleKeyUp e2 5000 initialCapture).mouseCount = initialCapture.mouseCount)) :=
  ⟨rfl, by decide,
    counter_increment_per_event initialCapture (KeyEvt.mk "a" "KeyA" "text")
      (MouseEvt.mk 7 9) 5000 rfl (by decide)⟩

/-- C8: a failed batch submission (thrown error / rejected promise) is
only logged: the already-cleared buffer stays empty (the batch is neither
retried nor re-queued), `batchesSent` and both counters are unchanged, the
`updateTrustScore` state driving the displayed score/status is unchanged,
and the sole observable effect is one more `console.error`. -/
theorem batch_failure_logged_and_dropped (s : CaptureState)
    (hne : s.buffer ≠ []) :
    (sendEventBatch true none s).1.buffer = [] ∧
    (sendEventBatch true none s).1.batchesSent = s.batchesSent ∧
    (sendEventBatch true none s).1.keystrokeCount = s.keystrokeCount ∧
    (sendEventBatch true none s).1.mouseCount = s.mouseCount ∧
    (sendEventBatch true none s).1.updateScore = s.updateScore ∧
    (sendEventBatch true none s).1.updateStatus = s.updateStatus ∧
    (sendEventBatch true none s).1.loggedErrors = s.loggedErrors + 1 := by
  unfold sendEventBatch
  simp [hne]

/-- Witness for `batch_failure_logged_and_dropped` on a one-event buffer. -/
theorem batch_failure_logged_and_dropped_witness :
    ({ initialCapture with buffer := [BEvent.mouse 3 4 "click" 1] } : CaptureState).buffer ≠ [] ∧
    ((sendEventBatch true none
        { initialCapture with buffer := [BEvent.mouse 3 4 "click" 1] }).1.buffer = [] ∧
     (sendEventBatch true none
        { initialCapture with buffer := [BEvent.mouse 3 4 "click" 1] }).1.batchesSent
        = ({ initialCapture with buffer := [BEvent.mouse 3 4 "click" 1] } : CaptureState).batchesSent ∧
     (sendEventBatch true none
        { initialCapture with buffer := [BEvent.mouse 3 4 "click" 1] }).1.keystrokeCount
        = ({ initialCapture with buffer := [BEvent.mouse 3 4 "click" 1] } : CaptureState).keystrokeCount ∧
     (sendEventBatch true none
        { initialCapture with buffer := [BEvent.mouse 3 4 "click" 1] }).1.mouseCount
        = ({ initialCapture with buffer := [BEvent.mouse 3 4 "click" 1] } : CaptureState).mouseCount ∧
     (sendEventBatch true none
        { initialCapture with buffer := [BEvent.mouse 3 4 "click" 1] }).1.updateScore
        = ({ initialCapture with buffer := [BEvent.mouse 3 4 "click" 1] } : CaptureState).updateScore ∧
     (sendEventBatch true none
        { initialCapture with buffer := [BEvent.mouse 3 4 "click" 1] }).1.updateStatus
        = ({ initialCapture with buffer := [BEvent.mouse 3 4 "click" 1] } : CaptureState).updateStatus ∧
     (sendEventBatch true none
        { initialCapture with buffer := [BEvent.mouse 3 4 "click" 1] }).1.loggedErrors
        = ({ initialCapture with buffer := [BEvent.mouse 3 4 "click" 1] } : CaptureState).loggedErrors + 1) :=
  ⟨by decide,
    batch_failure_logged_and_dropped
      { initialCapture with buffer := [BEvent.mouse 3 4 "click" 1] } (by decide)⟩

/-! ### Theorems about the Policy Reactor -/

/-- C1 counterexample: a snapshot with no explicit action and score 10
(below the claimed terminate threshold) schedules no teardown and appends
no alert, and one with score 30 (the claimed stepup band) opens no modal —
refuting the claimed score-threshold fallback table. -/
theorem applyPolicy_no_fallback_cex :
    (applyPolicy none false (some 10) (some "CRITICAL") 0 initialDash).teardownTimers = [] ∧
    (applyPolicy none false (some 10) (some "CRITICAL") 0 initialDash).alerts = [] ∧
    (applyPolicy none false (some 30) (some "SUSPICIOUS") 0 initialDash).showStepUp = false ∧
    (applyPolicy none false (some 10) (some "CRITICAL") 0 initialDash).trustScore = 10 := by
  refine ⟨?_, ?_, ?_, ?_⟩ <;> rfl

/-- C1 amended: a TrustSnapshot carrying no explicit action (and no
`require_stepup` flag) only updates the displayed score and status; no
action is derived from the score — no alert, no modal, no teardown,
whatever the score is. -/
theorem applyPolicy_no_action_display_only
    (s : DashState) (score : Option ℚ) (status : Option String) (now : Nat) :
    (applyPolicy none false score status now s).showStepUp = s.showStepUp ∧
    (applyPolicy none false score status now s).alerts = s.alerts ∧
    (applyPolicy none false score status now s).toasts = s.toasts ∧
    (applyPolicy none false score status now s).teardownTimers = s.teardownTimers ∧
    (applyPolicy none false score status now s).trustScore = score.getD s.trustScore ∧
    (applyPolicy none false score status now s).trustStatus = status.getD s.trustStatus := by
  refine ⟨?_, ?_, ?_, ?_, ?_, ?_⟩ <;> simp [applyPolicy]

/-- C2 counterexample: two terminate verdicts arriving 1 s apart each
schedule their own teardown — after the second, two logout timers are
pending (at 4 s and at 5 s), refuting "at most one pending teardown,
firing once at the originally scheduled time". -/
theorem terminate_double_schedule_cex :
    (applyPolicy (some "terminate") false (some 10) (some "CRITICAL") 1000
        (applyPolicy (some "terminate") false (some 10) (some "CRITICAL") 0
          initialDash)).teardownTimers = [4000, 5000] := by
  rfl

/-- C2 amended: every applied terminate verdict unconditionally schedules
a fresh session teardown `TERMINATE_DELAY_MS` after its arrival, appended
to whatever teardowns are already pending — there is no idempotence
guard, so n terminate verdicts leave n pending teardown timers. -/
theorem terminate_always_schedules_teardown
    (s : DashState) (r : Bool) (score : Option ℚ) (status : Option String) (now : Nat) :
    (applyPolicy (some "terminate") r score status now s).teardownTimers
      = s.teardownTimers ++ [now + TERMINATE_DELAY_MS] := by
  simp [applyPolicy, handleTerminate, addAlert, showToast]

/-- C7: applying a stepup verdict (explicit `stepup` action, or the
`require_stepup` flag alone) while the step-up modal is already open is a
no-op apart from the score/status display update: the whole state is
otherwise unchanged, so no second ceremony opens and no extra alert or
toast is appended, and any number of further stepup verdicts leave
exactly one open ceremony. -/
theorem stepup_second_trigger_noop
    (s : DashState) (r : Bool) (score : Option ℚ) (status : Option String)
    (now : Nat) (hopen : s.showStepUp = true) :
    applyPolicy (some "stepup") r score status now s =
      { s with trustScore := score.getD s.trustScore,
               trustStatus := status.getD s.trustStatus } ∧
    applyPolicy none true score status now s =
      { s with trustScore := score.getD s.trustScore,
               trustStatus := status.getD s.trustStatus } := by
  constructor <;> simp [applyPolicy, hopen]

/-- Witness for `stepup_second_trigger_noop` at a concrete open-ceremony
state. -/
theorem stepup_second_trigger_noop_witness :
    (DashState.mk 30 "SUSPICIOUS" true [] [] []).showStepUp = true ∧
    (applyPolicy (some "stepup") false (some 25) (some "SUSPICIOUS") 7
        (DashState.mk 30 "SUSPICIOUS" true [] [] []) =
      { DashState.mk 30 "SUSPICIOUS" true [] [] [] with
          trustScore := (some (25 : ℚ)).getD (DashState.mk 30 "SUSPICIOUS" true [] [] []).trustScore,
          trustStatus := (some "SUSPICIOUS").getD (DashState.mk 30 "SUSPICIOUS" true [] [] []).trustStatus } ∧
     applyPolicy none true (some 25) (some "SUSPICIOUS") 7
        (DashState.mk 30 "SUSPICIOUS" true [] [] []) =
      { DashState.mk 30 "SUSPICIOUS" true [] [] [] with
          trustScore := (some (25 : ℚ)).getD (DashState.mk 30 "SUSPICIOUS" true [] [] []).trustScore,
          trustStatus := (some "SUSPICIOUS").getD (DashState.mk 30 "SUSPICIOUS" true [] [] []).trustStatus }) :=
  ⟨rfl, stepup_second_trigger_noop (DashState.mk 30 "SUSPICIOUS" true [] [] [])
      false (some 25) (some "SUSPICIOUS") 7 rfl⟩

/-- C9 counterexample: in the legacy `Dashboard.jsx`, cancelling the open
step-up modal merely closes it — the session token and authenticated flag
survive — refuting "cancel always results in forced logout, never in
merely closing the modal". -/
theorem stepup_cancel_keeps_session_cex :
    (stepUpOnCancelLegacy
        (LegacyDashState.mk true
          (AuthState.mk (some "tok") (some "sess") (some "ann") true))).showStepUp = false ∧
    (stepUpOnCancelLegacy
        (LegacyDashState.mk true
          (AuthState.mk (some "tok") (some "sess") (some "ann") true))).auth.isAuthenticated = true ∧
    (stepUpOnCancelLegacy
        (LegacyDashState.mk true
          (AuthState.mk (some "tok") (some "sess") (some "ann") true))).auth.token = some "tok" := by
  refine ⟨?_, ?_, ?_⟩ <;> rfl

/-- C9 amended: the two Dashboard variants differ. In the Dashboard of
`src/unnamed/part_003` the modal's cancel is `logout` — the session is
cleared and the app returns to the unauthenticated view; in the legacy
`src/frontend/src/components/Dashboard.jsx` the cancel merely closes the
modal and leaves the session untouched. -/
theorem stepup_cancel_per_dashboard (a : AuthState) (d : LegacyDashState) :
    (stepUpOnCancelP3 a).token = none ∧
    (stepUpOnCancelP3 a).sessionId = none ∧
    (stepUpOnCancelP3 a).username = none ∧
    (stepUpOnCancelP3 a).isAuthenticated = false ∧
    (stepUpOnCancelLegacy d).showStepUp = false ∧
    (stepUpOnCancelLegacy d).auth = d.auth := by
  refine ⟨?_, ?_, ?_, ?_, ?_, ?_⟩ <;> rfl

/-! ### Theorems about the displayed score -/

/-- C6 counterexample: a snapshot score of 150 is displayed as 150 and a
score of -5 as -5 — the `TrustScoreCard` renders `Math.round(score)` with
no clamping to [0,100]. -/
theorem displayed_score_unclamped_cex :
    displayedTrustScore 150 = 150 ∧ 100 < displayedTrustScore 150 ∧
    displayedTrustScore (-5) = -5 ∧ displayedTrustScore (-5) < 0 := by
  have h1 : displayedTrustScore 150 = 150 := by
    unfold displayedTrustScore jsRound
    rw [Int.floor_eq_iff]
    push_cast
    norm_num
  have h2 : displayedTrustScore (-5) = -5 := by
    unfold displayedTrustScore jsRound
    rw [Int.floor_eq_iff]
    push_cast
    norm_num
  exact ⟨h1, by rw [h1]; norm_num, h2, by rw [h2]; norm_num⟩

/-- C6 amended: the displayed value is `Math.round(score)` with no
clamping; it is guaranteed to lie in [0,100] only because (and when) the
received score does — rounding preserves the range. -/
theorem displayed_score_in_range (q : ℚ) (h0 : 0 ≤ q) (h1 : q ≤ 100) :
    0 ≤ displayedTrustScore q ∧ displayedTrustScore q ≤ 100 := by
  unfold displayedTrustScore jsRound
  constructor
  · exact Int.le_floor.mpr (by push_cast; linarith)
  · have hlt : ⌊q + 1 / 2⌋ < 101 := Int.floor_lt.mpr (by push_cast; linarith)
    omega

/-- Witness for `displayed_score_in_range` at a concrete in-range score. -/
theorem displayed_score_in_range_witness :
    (0 : ℚ) ≤ 55 ∧ (55 : ℚ) ≤ 100 ∧
    (0 ≤ displayedTrustScore 55 ∧ displayedTrustScore 55 ≤ 100) :=
  ⟨by norm_num, by norm_num, displayed_score_in_range 55 (by norm_num) (by norm_num)⟩

/-! ### Theorems about the base64url transcoding helpers -/

/-- Every base64 alphabet character survives the url-safe substitution and
its reverse, decoding back to its own sextet; and none of them is `=`. -/
theorem sextet_ok : ∀ s, s < 64 →
    urlSub (b64Char s) ≠ 61 ∧ b64Idx (urlUnsub (urlSub (b64Char s))) = some s := by
  decide

/-- The reverse url substitution never produces `=` from a non-`=`. -/
theorem urlUnsub_ne_61 (c : Nat) (h : c ≠ 61) : urlUnsub c ≠ 61 := by
  unfold urlUnsub
  split
  · omega
  · split
    · omega
    · exact h

/-- The encoder output contains no `=`: padding is dropped and the
substitutions introduce none. -/
theorem encoded_no_61 (bs : List Nat) :
    ¬ 61 ∈ ((arrayBufferToBase64 bs).map urlUnsub) := by
  intro hmem
  simp only [arrayBufferToBase64, List.mem_map, List.mem_filter,
    decide_eq_true_eq] at hmem
  obtain ⟨c, ⟨_, hne⟩, huns⟩ := hmem
  exact urlUnsub_ne_61 c hne huns

/-- `stripPad` is the identity on strings containing no `=`. -/
theorem stripPad_no_61 (s : List Nat) (h : ¬ 61 ∈ s) : stripPad s = s := by
  have hlast : ¬ s.getLast? = some 61 := by
    intro hl
    obtain ⟨hne, heq⟩ :=
      List.mem_getLast?_eq_getLast (Option.mem_def.mpr hl)
    exact h (heq ▸ List.getLast_mem hne)
  unfold stripPad
  simp [hlast]

/-- Decoding the padded-then-stripped, url-substituted encoding of a byte
list recovers exactly that list. -/
theorem decodeChunks_encode (bs : List Nat) :
    (∀ b ∈ bs, b < 256) →
    decodeChunks ((arrayBufferToBase64 bs).map urlUnsub) = some bs := by
  unfold arrayBufferToBase64
  induction bs using btoa.induct with
  | case1 a b c rest ih =>
      intro h
      have ha : a < 256 := h a (by simp)
      have hb : b < 256 := h b (by simp)
      have hc : c < 256 := h c (by simp)
      have h1 := sextet_ok (a / 4) (by omega)
      have h2 := sextet_ok (a % 4 * 16 + b / 16) (by omega)
      have h3 := sextet_ok (b % 16 * 4 + c / 64) (by omega)
      have h4 := sextet_ok (c % 64) (by omega)
      have htl := ih (fun x hx => h x (by simp [hx]))
      have e1 : a / 4 * 4 + (a % 4 * 16 + b / 16) / 16 = a := by omega
      have e2 : (a % 4 * 16 + b / 16) % 16 * 16 + (b % 16 * 4 + c / 64) / 4 = b := by
        omega
      have e3 : (b % 16 * 4 + c / 64) % 4 * 64 + c % 64 = c := by omega
      simp only [decide_not] at htl
      simp [btoa, List.filter_cons, h1.1, h2.1, h3.1, h4.1, decodeChunks,
        h1.2, h2.2, h3.2, h4.2, htl, e1, e2, e3]
  | case2 a b =>
      intro h
      have ha : a < 256 := h a (by simp)
      have hb : b < 256 := h b (by simp)
      have h1 := sextet_ok (a / 4) (by omega)
      have h2 := sextet_ok (a % 4 * 16 + b / 16) (by omega)
      have h3 := sextet_ok (b % 16 * 4) (by omega)
      have e1 : a / 4 * 4 + (a % 4 * 16 + b / 16) / 16 = a := by omega
      have e2 : (a % 4 * 16 + b / 16) % 16 * 16 + b % 16 * 4 / 4 = b := by omega
      have e2r : (a % 4 * 16 + b / 16) % 16 * 16 + b % 16 = b := by omega
      simp [btoa, List.filter_cons, h1.1, h2.1, h3.1, decodeChunks,
        h1.2, h2.2, h3.2, e1, e2, e2r]
  | case3 a =>
      intro h
      have ha : a < 256 := h a (by simp)
      have h1 := sextet_ok (a / 4) (by omega)
      have h2 := sextet_ok (a % 4 * 16) (by omega)
      have e1 : a / 4 * 4 + a % 4 * 16 / 16 = a := by omega
      have e1r : a / 4 * 4 + a % 4 = a := by omega
      simp [btoa, List.filter_cons, h1.1, h2.1, decodeChunks, h1.2, h2.2, e1, e1r]
  | case4 =>
      intro _
      rfl

/-- C10: decoding the base64url encoding of any byte sequence yields the
sequence back — `base64ToArrayBuffer (arrayBufferToBase64 b)` succeeds and
returns exactly the bytes of `b`. -/
theorem base64_roundtrip (bs : List Nat) (h : ∀ b ∈ bs, b < 256) :
    base64ToArrayBuffer (arrayBufferToBase64 bs) = some bs := by
  unfold base64ToArrayBuffer atobModel
  rw [stripPad_no_61 _ (encoded_no_61 bs)]
  exact decodeChunks_encode bs h

/-- Witness for `base64_roundtrip` on a concrete four-byte buffer. -/
theorem base64_roundtrip_witness :
    (∀ b ∈ [0, 255, 77, 3], b < 256) ∧
    base64ToArrayBuffer (arrayBufferToBase64 [0, 255, 77, 3]) = some [0, 255, 77, 3] :=
  ⟨by decide, base64_roundtrip [0, 255, 77, 3] (by decide)⟩

end ContAuth
